import Mathlib

/-!
Formal model of the buildvault task-graph execution engine.

The definitions below are a shallow embedding of the Go sources of the
`benjaminstrasser/buildvault` repository: the Task/Dependency/Artifact data
model, the SHA-256 based fingerprint (`generateHash`,
`generateContainerName`), the cycle detector (`isCircularDependencyFree`),
the executor (`Execute`, `executeDependenciesAndCopyArtifacts`,
`executeCommands`, `cleanUpRunningContainer`, `copyBetweenContainers`) and
the host-side tar extraction (`ExtractFileFromTar`).  Container-runtime
calls (the Docker client) are modelled by an explicit oracle record
(`DockerClient`), and the executor is modelled as a pure function that
returns the trace of provider actions it performs together with its error
result.
-/

namespace BuildVault

/-! ## 32-bit word helpers and SHA-256 (crypto/sha256) -/

/-- Reduce a natural number to a 32-bit word. -/
def w32 (n : Nat) : Nat := n % 4294967296

/-- Right rotation of a 32-bit word. -/
def rotr (n x : Nat) : Nat := w32 ((x >>> n) ||| (x <<< (32 - n)))

/-- Logical right shift. -/
def shr (n x : Nat) : Nat := x >>> n

/-- Three-way xor. -/
def xor3 (a b c : Nat) : Nat := (a ^^^ b) ^^^ c

/-- Addition modulo 2^32. -/
def add32 (a b : Nat) : Nat := w32 (a + b)

/-- Bitwise complement of a 32-bit word. -/
def not32 (x : Nat) : Nat := x ^^^ 4294967295

/-- The SHA-256 round constants, in decimal. -/
def sha256K : List Nat :=
  [1116352408, 1899447441, 3049323471, 3921009573, 961987163, 1508970993,
   2453635748, 2870763221, 3624381080, 310598401, 607225278, 1426881987,
   1925078388, 2162078206, 2614888103, 3248222580, 3835390401, 4022224774,
   264347078, 604807628, 770255983, 1249150122, 1555081692, 1996064986,
   2554220882, 2821834349, 2952996808, 3210313671, 3336571891, 3584528711,
   113926993, 338241895, 666307205, 773529912, 1294757372, 1396182291,
   1695183700, 1986661051, 2177026350, 2456956037, 2730485921, 2820302411,
   3259730800, 3345764771, 3516065817, 3600352804, 4094571909, 275423344,
   430227734, 506948616, 659060556, 883997877, 958139571, 1322822218,
   1537002063, 1747873779, 1955562222, 2024104815, 2227730452, 2361852424,
   2428436474, 2756734187, 3204031479, 3329325298]

/-- The SHA-256 initial hash state, in decimal. -/
def sha256InitState : List Nat :=
  [1779033703, 3144134277, 1013904242, 2773480762,
   1359893119, 2600822924, 528734635, 1541459225]

/-- Big-endian bytes of a value, for a given byte count. -/
def beBytes : Nat → Nat → List Nat
  | 0, _ => []
  | n + 1, v => beBytes n (v / 256) ++ [v % 256]

/-- SHA-256 message padding: append 0x80, zeros up to 56 mod 64, then the 64-bit bit length. -/
def sha256Pad (msg : List Nat) : List Nat :=
  let l := msg.length
  msg ++ [0x80] ++ List.replicate ((119 - l % 64) % 64) 0 ++ beBytes 8 (l * 8)

/-- Combine bytes into 32-bit big-endian words. -/
def toWords : List Nat → List Nat
  | b0 :: b1 :: b2 :: b3 :: rest => (((b0 * 256 + b1) * 256 + b2) * 256 + b3) :: toWords rest
  | _ => []

/-- Group a word list into 16-word blocks (a padded message always yields full blocks). -/
def chunk16 : List Nat → List (List Nat)
  | w0 :: w1 :: w2 :: w3 :: w4 :: w5 :: w6 :: w7 ::
    w8 :: w9 :: w10 :: w11 :: w12 :: w13 :: w14 :: w15 :: rest =>
    [w0, w1, w2, w3, w4, w5, w6, w7, w8, w9, w10, w11, w12, w13, w14, w15] :: chunk16 rest
  | _ => []

/-- Extend a 16-word block by the given number of schedule words (48 for SHA-256). -/
def sha256Extend (ws : List Nat) : Nat → List Nat
  | 0 => ws
  | n + 1 =>
    let ws := sha256Extend ws n
    let i := ws.length
    let w15 := ws.getD (i - 15) 0
    let w2 := ws.getD (i - 2) 0
    let s0 := xor3 (rotr 7 w15) (rotr 18 w15) (shr 3 w15)
    let s1 := xor3 (rotr 17 w2) (rotr 19 w2) (shr 10 w2)
    ws ++ [add32 (add32 (ws.getD (i - 16) 0) s0) (add32 (ws.getD (i - 7) 0) s1)]

/-- One round of the SHA-256 compression function. -/
def sha256Round (st : List Nat) (k w : Nat) : List Nat :=
  match st with
  | [a, b, c, d, e, f, g, h] =>
    let s1 := xor3 (rotr 6 e) (rotr 11 e) (rotr 25 e)
    let ch := (e &&& f) ^^^ (not32 e &&& g)
    let temp1 := add32 (add32 h s1) (add32 ch (add32 k w))
    let s0 := xor3 (rotr 2 a) (rotr 13 a) (rotr 22 a)
    let maj := xor3 (a &&& b) (a &&& c) (b &&& c)
    let temp2 := add32 s0 maj
    [add32 temp1 temp2, a, b, c, add32 d temp1, e, f, g]
  | st => st

/-- Iterate the compression rounds over the constants and the message schedule. -/
def sha256Rounds : List Nat → List Nat → List Nat → List Nat
  | st, k :: ks, w :: ws => sha256Rounds (sha256Round st k w) ks ws
  | st, _, _ => st

/-- Process one 16-word block. -/
def sha256Block (hs block : List Nat) : List Nat :=
  let ws := sha256Extend block 48
  let st := sha256Rounds hs sha256K ws
  List.zipWith add32 hs st

/-- SHA-256 of a byte sequence, as 32 bytes. -/
def sha256 (msg : List Nat) : List Nat :=
  let hs := (chunk16 (toWords (sha256Pad msg))).foldl sha256Block sha256InitState
  hs.flatMap (beBytes 4)

/-- Lowercase hexadecimal digit. -/
def hexDigit (n : Nat) : Char :=
  if n < 10 then Char.ofNat (48 + n) else Char.ofNat (87 + n)

/-- Lowercase hexadecimal encoding of a byte list (encoding/hex EncodeToString). -/
def hexEncode (bs : List Nat) : List Char :=
  bs.flatMap (fun b => [hexDigit (b / 16), hexDigit (b % 16)])

/-! ## UTF-8 and the Go JSON encoding of a string slice -/

/-- UTF-8 encoding of a single character. -/
def charUtf8 (c : Char) : List Nat :=
  let n := c.toNat
  if n < 0x80 then [n]
  else if n < 0x800 then [0xC0 ||| (n >>> 6), 0x80 ||| (n &&& 0x3F)]
  else if n < 0x10000 then
    [0xE0 ||| (n >>> 12), 0x80 ||| ((n >>> 6) &&& 0x3F), 0x80 ||| (n &&& 0x3F)]
  else
    [0xF0 ||| (n >>> 18), 0x80 ||| ((n >>> 12) &&& 0x3F),
     0x80 ||| ((n >>> 6) &&& 0x3F), 0x80 ||| (n &&& 0x3F)]

/-- UTF-8 bytes of a string ([]byte conversion in Go). -/
def strBytes (s : String) : List Nat := s.data.flatMap charUtf8

/-- UTF-8 bytes of a character list. -/
def charsBytes (cs : List Char) : List Nat := cs.flatMap charUtf8

/-- Escaping of one character inside a JSON string literal, as produced by Go
encoding/json with its default HTML escaping: quote, backslash, newline,
carriage return and tab have two-character escapes; other control characters
and the HTML-sensitive characters get a lowercase \u00XX escape; the line and
paragraph separators U+2028 and U+2029 get six-character escapes; everything
else is written verbatim. -/
def jsonEscapeChar (c : Char) : List Char :=
  if c = '"' then ['\\', '"']
  else if c = '\\' then ['\\', '\\']
  else if c = '\n' then ['\\', 'n']
  else if c = '\r' then ['\\', 'r']
  else if c = '\t' then ['\\', 't']
  else if c.toNat < 32 || c = '<' || c = '>' || c = '&' then
    ['\\', 'u', '0', '0', hexDigit (c.toNat / 16), hexDigit (c.toNat % 16)]
  else if c.toNat = 8232 then ['\\', 'u', '2', '0', '2', '8']
  else if c.toNat = 8233 then ['\\', 'u', '2', '0', '2', '9']
  else [c]

/-- A JSON string literal for one string. -/
def jsonStringChars (s : String) : List Char :=
  '"' :: s.data.flatMap jsonEscapeChar ++ ['"']

/-- The Go json.Marshal output for a []string value (a nil slice marshals to
null in Go; the Lean list type does not distinguish nil from empty, so the
empty list is rendered as the empty array). -/
def jsonMarshalStringList : List String → List Char
  | [] => ['[', ']']
  | s :: rest =>
    '[' :: (jsonStringChars s ++ rest.flatMap (fun r => ',' :: jsonStringChars r)) ++ [']']

/-! ## The task data model (pkg/task.go)

A Task holds a name, a base image, an ordered command list and an ordered
dependency list; a Dependency references an upstream Task together with the
ordered Artifact (From/To) mappings to pull from it.  The Go graph links
tasks by pointer; the embedding uses finite trees, so a cyclic pointer graph
is represented by unrolling it until a fingerprint repeats on a path. -/

structure Artifact where
  fromPath : String
  toPath : String
deriving DecidableEq, Repr

mutual
inductive Task where
  | mk : String → String → List String → List Dependency → Task
deriving Repr
inductive Dependency where
  | mk : Task → List Artifact → Dependency
deriving Repr
end

def Task.name : Task → String
  | .mk n _ _ _ => n

def Task.baseImage : Task → String
  | .mk _ b _ _ => b

def Task.commands : Task → List String
  | .mk _ _ c _ => c

def Task.dependencies : Task → List Dependency
  | .mk _ _ _ d => d

def Dependency.task : Dependency → Task
  | .mk t _ => t

def Dependency.artifacts : Dependency → List Artifact
  | .mk _ a => a

/-! ## Fingerprinting (generateHash, generateContainerName) -/

/-- Bytes an Artifact contributes to the hash: To then From, with no separator. -/
def artifactBytes (a : Artifact) : List Nat :=
  strBytes a.toPath ++ strBytes a.fromPath

/-- Bytes a Dependency contributes to the hash: the upstream task name followed
by the artifact mappings, with no separator. -/
def dependencyBytes (d : Dependency) : List Nat :=
  strBytes d.task.name ++ d.artifacts.flatMap artifactBytes

/-- The byte stream generateHash feeds to the SHA-256 hasher: name, base image,
the JSON marshalling of the command list, then for every dependency the
upstream name and its artifact To/From strings, all concatenated with no
separator. -/
def Task.hashInput (t : Task) : List Nat :=
  strBytes t.name ++ strBytes t.baseImage ++ charsBytes (jsonMarshalStringList t.commands)
    ++ t.dependencies.flatMap dependencyBytes

/-- generateHash: the first 12 characters of the lowercase hex SHA-256 digest
of the task field stream. -/
def Task.generateHash (t : Task) : String :=
  String.mk ((hexEncode (sha256 t.hashInput)).take 12)

/-- generateContainerName: the deterministic container name buildvault_name_hash. -/
def Task.generateContainerName (t : Task) : String :=
  "buildvault_" ++ t.name ++ "_" ++ t.generateHash

/-! ## Cycle detection (isCircularDependencyFree) -/

mutual
/-- isCircularDependencyFree: a task with no dependencies is free; otherwise,
if the current fingerprint already occurs in the ancestor path the graph is
cyclic; otherwise every dependency is checked against a fresh copy of the
path extended with the current fingerprint. -/
def Task.isCircularDependencyFree : Task → List String → Bool
  | .mk n b c deps, parentHashes =>
    if deps.isEmpty then true
    else
      let currentHash := Task.generateHash (.mk n b c deps)
      if parentHashes.contains currentHash then false
      else depsCircularFree deps (parentHashes ++ [currentHash])

/-- The dependency loop of isCircularDependencyFree: false as soon as one
dependency subtree reports a cycle. -/
def depsCircularFree : List Dependency → List String → Bool
  | [], _ => true
  | .mk dt _ :: rest, p => Task.isCircularDependencyFree dt p && depsCircularFree rest p
end

/-! ## Slash paths (path/filepath, restricted to clean paths)

The Go code manipulates paths only through filepath.Dir, filepath.Base and
the implicit join performed by the container runtime when it extracts an
archive into a directory.  The model below follows the Go functions on
clean slash-separated paths (no trailing slashes, no dot segments), which
covers every path the repository constructs. -/

/-- Index of the last slash of a character list, if any. -/
def lastSlashIdx (cs : List Char) : Option Nat :=
  (cs.reverse.findIdx? (fun c => c = '/')).map (fun i => cs.length - 1 - i)

/-- filepath.Dir on a clean path: everything before the last slash, the root
for a top-level absolute path, and the dot when there is no slash. -/
def filepathDir (p : String) : String :=
  match lastSlashIdx p.data with
  | none => "."
  | some 0 => "/"
  | some i => String.mk (p.data.take i)

/-- filepath.Base on a clean path: everything after the last slash. -/
def filepathBase (p : String) : String :=
  if p = "" then "."
  else if p = "/" then "/"
  else
    match lastSlashIdx p.data with
    | none => p
    | some i => String.mk (p.data.drop (i + 1))

/-- Join a directory and a file name the way archive extraction into a
directory resolves an entry name. -/
def joinPath (dir file : String) : String :=
  if dir = "." then file
  else if dir = "/" then "/" ++ file
  else dir ++ "/" ++ file

/-- Auxiliary for mkdirAllDirs: successive joins of the remaining components. -/
def prefixDirs (acc : String) : List String → List String
  | [] => []
  | part :: rest =>
    let cur := if acc = "" then part else if acc = "/" then "/" ++ part else acc ++ "/" ++ part
    cur :: prefixDirs cur rest

/-- The directories that exist after a recursive directory creation
(os.MkdirAll, mkdir -p) of a clean path: the path itself and all its
ancestors. -/
def mkdirAllDirs (p : String) : List String :=
  if p = "." || p = "/" || p = "" then []
  else
    match p.splitOn "/" with
    | "" :: parts => prefixDirs "/" parts
    | parts => prefixDirs "" parts

/-! ## The container-runtime oracle

Every Docker client call the executor makes is modelled by one field of
this record: the outcome of the call is a pure function of its arguments.
Error channels are Option String (none means the call succeeds); the
container id assigned by a successful create is the createId field. -/

structure ContainerSummary where
  id : String
  state : String
deriving DecidableEq, Repr

structure DockerClient where
  containersByName : String → List ContainerSummary
  stopError : String → Option String
  removeError : String → Option String
  imageExists : String → Bool
  pullError : String → Option String
  createError : String → String → Option String
  createId : String → String → String
  startError : String → Option String
  execExitCode : String → String → Int
  copyFromError : String → String → Option String
  mkdirError : String → String → Option String
  copyToError : String → String → Option String

/-- The provider actions and key console reports of one execution, in order. -/
inductive Event where
  | foundExisting (id : String)
  | stopContainer (id : String)
  | removeContainer (id : String)
  | imagePresent (image : String)
  | pullImage (image : String)
  | createContainer (name image : String)
  | startContainer (id : String)
  | noDependencies
  | circularDependencyFound
  | execCommand (id cmd : String)
  | mkdirInContainer (id dir : String)
  | copyArtifact (srcId dstId fromPath toPath : String)
  | taskComplete (name : String)
deriving DecidableEq, Repr

/-- The error taxonomy of the executor, one constructor per fmt.Errorf site. -/
inductive Err where
  | errStopExisting (msg : String)
  | errPull (msg : String)
  | errCreate (msg : String)
  | errStart (msg : String)
  | errExecDep (depName : String) (inner : Err)
  | errCopyDep (fromPath : String) (inner : Err)
  | errCopyFromSource (msg : String)
  | errCreateDirTarget (msg : String)
  | errCopyToTarget (msg : String)
  | errCommandFailed (cmd : String) (exitCode : Int)
  | errStopContainer (msg : String)
deriving DecidableEq, Repr

/-! ## Reclaim (cleanUpRunningContainer) -/

/-- The loop of cleanUpRunningContainer over the containers found by name: a
running container is stopped first and a stop failure is returned; the
subsequent remove is issued but its error is never consulted (the Go code
builds the error with fmt.Errorf and discards the result), so a failed
remove neither aborts nor surfaces. -/
def cleanUpLoop (ora : DockerClient) : List ContainerSummary → List Event × Option Err
  | [] => ([], none)
  | c :: rest =>
    if c.state = "running" then
      match ora.stopError c.id with
      | some e => ([.foundExisting c.id, .stopContainer c.id], some (.errStopExisting e))
      | none =>
        let (evs2, e2) := cleanUpLoop ora rest
        ([Event.foundExisting c.id, .stopContainer c.id, .removeContainer c.id] ++ evs2, e2)
    else
      let (evs2, e2) := cleanUpLoop ora rest
      ([Event.foundExisting c.id, .removeContainer c.id] ++ evs2, e2)

/-- cleanUpRunningContainer: list the containers carrying the deterministic
name and reclaim each one.  The container-list call itself is assumed to
succeed; its outcome is the oracle's containersByName field. -/
def cleanUpRunningContainer (ora : DockerClient) (containerName : String) :
    List Event × Option Err :=
  cleanUpLoop ora (ora.containersByName containerName)

/-- pullImage: skip when the image is already local, otherwise pull.  The
image-list call behind the local-existence check is assumed to succeed; its
outcome is the oracle's imageExists field. -/
def pullImage (ora : DockerClient) (baseImage : String) : List Event × Option Err :=
  if ora.imageExists baseImage then ([.imagePresent baseImage], none)
  else
    match ora.pullError baseImage with
    | some e => ([.pullImage baseImage], some (.errPull e))
    | none => ([.pullImage baseImage], none)

/-! ## Cross-container artifact copy (copyBetweenContainers) -/

/-- copyBetweenContainers at the provider-call level: read the source path as
an archive, create the directory of targetPath in the target container when
it differs from the dot, then hand the archive to the provider for
extraction into that directory. -/
def copyBetweenContainers (ora : DockerClient)
    (sourceContainerID targetContainerID sourcePath targetPath : String) :
    List Event × Option Err :=
  match ora.copyFromError sourceContainerID sourcePath with
  | some e => ([], some (.errCopyFromSource e))
  | none =>
    let targetDir := filepathDir targetPath
    if targetDir ≠ "." then
      match ora.mkdirError targetContainerID targetDir with
      | some e => ([.mkdirInContainer targetContainerID targetDir], some (.errCreateDirTarget e))
      | none =>
        match ora.copyToError targetContainerID targetDir with
        | some e =>
          ([.mkdirInContainer targetContainerID targetDir], some (.errCopyToTarget e))
        | none =>
          ([.mkdirInContainer targetContainerID targetDir,
            .copyArtifact sourceContainerID targetContainerID sourcePath targetPath], none)
    else
      match ora.copyToError targetContainerID targetDir with
      | some e => ([], some (.errCopyToTarget e))
      | none =>
        ([.copyArtifact sourceContainerID targetContainerID sourcePath targetPath], none)

/-! ## Command execution (executeCommands) -/

/-- executeCommands: run each command in declared order through the shell,
then inspect its exit code; a non-zero code aborts with an error carrying
the command text and the exit code, and no later command runs.  The
exec-create, attach and inspect transport calls are assumed to succeed; the
oracle supplies the command's exit status. -/
def executeCommands (ora : DockerClient) (containerID : String) :
    List String → List Event × Option Err
  | [] => ([], none)
  | cmd :: rest =>
    let code := ora.execExitCode containerID cmd
    if code ≠ 0 then ([.execCommand containerID cmd], some (.errCommandFailed cmd code))
    else
      let (evs, e) := executeCommands ora containerID rest
      (.execCommand containerID cmd :: evs, e)

/-! ## Dependency resolution (executeDependenciesAndCopyArtifacts, Execute) -/

/-- The artifact loop of the copy pass: copy each declared artifact in order,
wrapping a failure with the source path of the failing artifact. -/
def copyArtifactsLoop (ora : DockerClient) (srcId dstId : String) :
    List Artifact → List Event × Option Err
  | [] => ([], none)
  | a :: rest =>
    match copyBetweenContainers ora srcId dstId a.fromPath a.toPath with
    | (evs, some e) => (evs, some (.errCopyDep a.fromPath e))
    | (evs, none) =>
      let (evs2, e2) := copyArtifactsLoop ora srcId dstId rest
      (evs ++ evs2, e2)

/-- The second pass of executeDependenciesAndCopyArtifacts: for each
dependency in declared order, copy its declared artifacts in order from the
container recorded for that dependency into the current container. -/
def copyPhase (ora : DockerClient) (cid : String) :
    List Dependency → List String → List Event × Option Err
  | [], _ => ([], none)
  | .mk _ arts :: rest, dcid :: dcids =>
    match copyArtifactsLoop ora dcid cid arts with
    | (evs, some e) => (evs, some e)
    | (evs, none) =>
      let (evs2, e2) := copyPhase ora cid rest dcids
      (evs ++ evs2, e2)
  | _ :: _, [] => ([], none)

mutual
/-- Execute: reclaim any container carrying the deterministic name, provision
the image, create and start a fresh container, resolve dependencies and copy
their artifacts, run the commands, then stop (but keep) the container.  The
dependency-resolution step is the body of
executeDependenciesAndCopyArtifacts, inlined over the receiver fields; the
standalone function below restates it verbatim. -/
def Task.Execute (ora : DockerClient) : Task → List Event × Except Err String
  | .mk n b c deps =>
    let containerName := Task.generateContainerName (.mk n b c deps)
    let (ev1, e1) := cleanUpRunningContainer ora containerName
    match e1 with
    | some e => (ev1, .error e)
    | none =>
      let (ev2, e2) := pullImage ora b
      match e2 with
      | some e => (ev1 ++ ev2, .error e)
      | none =>
        match ora.createError containerName b with
        | some e => (ev1 ++ ev2, .error (.errCreate e))
        | none =>
          let cid := ora.createId containerName b
          match ora.startError cid with
          | some e => (ev1 ++ ev2 ++ [.createContainer containerName b], .error (.errStart e))
          | none =>
            let (ev3, e3) :=
              if deps.isEmpty then ([Event.noDependencies], none)
              else
                let cycEv :=
                  if Task.isCircularDependencyFree (.mk n b c deps) [] then ([] : List Event)
                  else [Event.circularDependencyFound]
                match execDepsLoop ora deps with
                | (evs, .error e) => (cycEv ++ evs, some e)
                | (evs, .ok cids) =>
                  let (evs2, e2) := copyPhase ora cid deps cids
                  (cycEv ++ evs ++ evs2, e2)
            let evBase := ev1 ++ ev2 ++ [.createContainer containerName b, .startContainer cid]
            match e3 with
            | some e => (evBase ++ ev3, .error e)
            | none =>
              let (ev4, e4) := executeCommands ora cid c
              match e4 with
              | some e => (evBase ++ ev3 ++ ev4, .error e)
              | none =>
                match ora.stopError cid with
                | some e => (evBase ++ ev3 ++ ev4, .error (.errStopContainer e))
                | none => (evBase ++ ev3 ++ ev4 ++ [.taskComplete n], .ok cid)

/-- The first pass of executeDependenciesAndCopyArtifacts: recursively
Execute every dependency task in declared order, wrapping a failure with the
dependency name; on success, collect each dependency's container id. -/
def execDepsLoop (ora : DockerClient) : List Dependency → List Event × Except Err (List String)
  | [] => ([], .ok [])
  | .mk dt _ :: rest =>
    match Task.Execute ora dt with
    | (evs, .error e) => (evs, .error (.errExecDep dt.name e))
    | (evs, .ok cid) =>
      match execDepsLoop ora rest with
      | (evs2, .error e) => (evs ++ evs2, .error e)
      | (evs2, .ok cids) => (evs ++ evs2, .ok (cid :: cids))
end

/-- executeDependenciesAndCopyArtifacts: nothing to do without dependencies;
otherwise run the cycle check (a finding is only reported, never returned as
an error), execute every dependency first, and only then copy the declared
artifacts. -/
def Task.executeDependenciesAndCopyArtifacts (ora : DockerClient) (t : Task) (cid : String) :
    List Event × Option Err :=
  if t.dependencies.isEmpty then ([Event.noDependencies], none)
  else
    let cycEv :=
      if t.isCircularDependencyFree [] then ([] : List Event)
      else [Event.circularDependencyFound]
    match execDepsLoop ora t.dependencies with
    | (evs, .error e) => (cycEv ++ evs, some e)
    | (evs, .ok cids) =>
      let (evs2, e2) := copyPhase ora cid t.dependencies cids
      (cycEv ++ evs ++ evs2, e2)

/-! ## Filesystem model: tar archives, host extraction and container copy -/

/-- A filesystem as a record of existing directories and of files with their
byte content. -/
structure FileSystem where
  dirs : List String
  files : List (String × List Nat)
deriving DecidableEq, Repr

/-- Create or overwrite a file binding (os.Create truncates an existing file). -/
def setFile (p : String) (content : List Nat) :
    List (String × List Nat) → List (String × List Nat)
  | [] => [(p, content)]
  | (q, c) :: rest => if q = p then (p, content) :: rest else (q, c) :: setFile p content rest

/-- Look up a file's content. -/
def lookupFile (p : String) : List (String × List Nat) → Option (List Nat)
  | [] => none
  | (q, c) :: rest => if q = p then some c else lookupFile p rest

/-- One tar archive entry: type flag, entry name and file content. -/
structure TarEntry where
  typeflag : Nat
  name : String
  content : List Nat
deriving DecidableEq, Repr

/-- The regular-file type flag (archive/tar TypeReg). -/
def tarTypeReg : Nat := 48

/-- The entry loop of ExtractFileFromTar: skip every non-regular entry, write
the first regular entry to the destination path and stop, consuming no later
entries; without a regular entry nothing is written. -/
def extractLoop (destPath : String) (fs : FileSystem) : List TarEntry → FileSystem
  | [] => fs
  | e :: rest =>
    if e.typeflag ≠ tarTypeReg then extractLoop destPath fs rest
    else { fs with files := setFile destPath e.content fs.files }

/-- ExtractFileFromTar: create the destination's parent directory recursively,
then extract the first regular file of the archive to the destination path. -/
def ExtractFileFromTar (entries : List TarEntry) (destPath : String) (fs : FileSystem) :
    FileSystem :=
  extractLoop destPath { fs with dirs := fs.dirs ++ mkdirAllDirs (filepathDir destPath) } entries

/-- Modelled from the spec (the CopyFromEnvironment collaborator interface and
its archive-stream convention, matching the Docker CopyFromContainer call):
copying a single file out of a container yields an archive holding one
regular entry whose name is the base name of the requested path and whose
content is the file's bytes; an absent path yields no entry. -/
def tarFromContainer (fs : FileSystem) (path : String) : List TarEntry :=
  match lookupFile path fs.files with
  | some content => [⟨tarTypeReg, filepathBase path, content⟩]
  | none => []

/-- Modelled from the spec (the CopyToEnvironment collaborator interface):
the provider extracts each regular archive entry into the destination
directory under the entry's own name. -/
def extractToContainer (destDir : String) (fs : FileSystem) : List TarEntry → FileSystem
  | [] => fs
  | e :: rest =>
    if e.typeflag = tarTypeReg then
      extractToContainer destDir
        { fs with files := setFile (joinPath destDir e.name) e.content fs.files } rest
    else extractToContainer destDir fs rest

/-- The filesystem-level effect of copyBetweenContainers on the target
container: read the source archive, create the directory of targetPath when
it differs from the dot, and extract the archive into that directory (the
code hands the provider the directory of targetPath, never targetPath
itself). -/
def copyBetweenContainersFS (src dst : FileSystem) (sourcePath targetPath : String) :
    FileSystem :=
  let entries := tarFromContainer src sourcePath
  let targetDir := filepathDir targetPath
  let dst1 :=
    if targetDir ≠ "." then { dst with dirs := dst.dirs ++ mkdirAllDirs targetDir } else dst
  extractToContainer targetDir dst1 entries

/-! ## Fingerprint lemmas and claims about generateHash -/

/-- Tasks with the same hash byte stream have the same fingerprint. -/
theorem generateHash_congr {t1 t2 : Task} (h : t1.hashInput = t2.hashInput) :
    t1.generateHash = t2.generateHash := by
  unfold Task.generateHash
  rw [h]

/-- The part of a Dependency that the fingerprint reads: the upstream task
name and the artifact list. -/
def depSignature (d : Dependency) : String × List Artifact := (d.task.name, d.artifacts)

theorem dependencyBytes_eq_sig (d : Dependency) :
    dependencyBytes d = strBytes (depSignature d).1 ++ (depSignature d).2.flatMap artifactBytes :=
  rfl

/-- Dependency lists with equal signatures contribute equal hash bytes. -/
theorem flatMap_dependencyBytes_congr {ds1 ds2 : List Dependency}
    (h : ds1.map depSignature = ds2.map depSignature) :
    ds1.flatMap dependencyBytes = ds2.flatMap dependencyBytes := by
  induction ds1 generalizing ds2 with
  | nil => cases ds2 <;> simp_all
  | cons d rest ih =>
    cases ds2 with
    | nil => simp_all
    | cons d2 rest2 =>
      simp only [List.map_cons, List.cons.injEq] at h
      simp only [List.flatMap_cons]
      rw [dependencyBytes_eq_sig d, dependencyBytes_eq_sig d2, h.1, ih h.2]

/-- C5: the fingerprint is a deterministic pure function of the declared
fields: tasks that agree on Name, BaseImage, Commands and on every
dependency's upstream task name and ordered Artifact From/To list get the
same generateHash, and hence the same buildvault_name_hash container name. -/
theorem generateHash_deterministic (t1 t2 : Task)
    (hn : t1.name = t2.name) (hb : t1.baseImage = t2.baseImage)
    (hc : t1.commands = t2.commands)
    (hd : t1.dependencies.map depSignature = t2.dependencies.map depSignature) :
    t1.generateHash = t2.generateHash ∧
    t1.generateContainerName = t2.generateContainerName := by
  have hh : t1.hashInput = t2.hashInput := by
    unfold Task.hashInput
    rw [hn, hb, hc, flatMap_dependencyBytes_congr hd]
  have hg := generateHash_congr hh
  refine ⟨hg, ?_⟩
  unfold Task.generateContainerName
  rw [hn, hg]

/-- Upstream tasks that differ deeply (different commands, images and their
own dependencies) but agree on name and declared artifacts. -/
def egDepLeafX : Task := .mk "up" "alpine" ["echo a"] []

def egDepLeafY : Task := .mk "up" "debian" ["echo b"] [.mk (.mk "deep" "" [] []) []]

def egT5a : Task := .mk "t" "alpine" ["make"] [.mk egDepLeafX [⟨"/f", "/t"⟩]]

def egT5b : Task := .mk "t" "alpine" ["make"] [.mk egDepLeafY [⟨"/f", "/t"⟩]]

theorem generateHash_deterministic_witness :
    egT5a.dependencies.map depSignature = egT5b.dependencies.map depSignature ∧
    egT5a.generateHash = egT5b.generateHash ∧
    egT5a.generateContainerName = egT5b.generateContainerName :=
  ⟨rfl, generateHash_deterministic egT5a egT5b rfl rfl rfl rfl⟩

/-- C6: a downstream fingerprint does not depend on upstream content: two
graphs that differ only in a direct dependency task's Commands (its Name,
its own dependency list and the declared Artifacts unchanged) give the
downstream task identical generateHash values. -/
theorem generateHash_ignores_upstream_commands
    (n b : String) (c : List String) (pre post : List Dependency)
    (un ub : String) (uc1 uc2 : List String) (ud : List Dependency) (arts : List Artifact) :
    Task.generateHash (.mk n b c (pre ++ Dependency.mk (Task.mk un ub uc1 ud) arts :: post)) =
    Task.generateHash (.mk n b c (pre ++ Dependency.mk (Task.mk un ub uc2 ud) arts :: post)) := by
  apply generateHash_congr
  unfold Task.hashInput
  simp [Task.name, Task.baseImage, Task.commands, Task.dependencies,
    dependencyBytes, Dependency.task, Dependency.artifacts]

/-- Name/BaseImage collision pair: distinct fields, equal concatenation. -/
def egColT1 : Task := .mk "ab" "c" ["x"] []

def egColT2 : Task := .mk "a" "bc" ["x"] []

/-- Artifact To/From collision pair: distinct mappings, equal concatenation. -/
def egColU1 : Task := .mk "T" "I" [] [.mk (.mk "B" "" [] []) [⟨"z", "xy"⟩]]

def egColU2 : Task := .mk "T" "I" [] [.mk (.mk "B" "" [] []) [⟨"yz", "x"⟩]]

/-- C10: generateHash concatenates the hashed fields with no separator, so
tasks with different Name and BaseImage whose concatenation agrees (and with
equal Commands and Dependencies) collide, and so do artifact To/From strings
shifted across their boundary: distinct task definitions can share the
environment-name hash. -/
theorem generateHash_collisions :
    (egColT1.name ≠ egColT2.name ∧ egColT1.baseImage ≠ egColT2.baseImage ∧
      egColT1.commands = egColT2.commands ∧ egColT1.dependencies = egColT2.dependencies ∧
      egColT1.generateHash = egColT2.generateHash) ∧
    (egColU1.dependencies.map Dependency.artifacts ≠
        egColU2.dependencies.map Dependency.artifacts ∧
      egColU1.name = egColU2.name ∧ egColU1.baseImage = egColU2.baseImage ∧
      egColU1.commands = egColU2.commands ∧
      egColU1.dependencies.map (fun d => d.task.name) =
        egColU2.dependencies.map (fun d => d.task.name) ∧
      egColU1.generateHash = egColU2.generateHash) :=
  ⟨⟨by decide, by decide, rfl, rfl, generateHash_congr (by decide)⟩,
    ⟨by decide, rfl, rfl, rfl, rfl, generateHash_congr (by decide)⟩⟩

/-! ## Cycle-detector claims -/

/-- The unrolled cyclic pointer graph A to B back to A: the innermost task
repeats the fingerprint of the root (same name, image, commands and
dependency signature), which is exactly how the pointer cycle manifests to
the fingerprint-based detector. -/
def cycLeafB : Task := .mk "B" "" [] []

def cycInnerA : Task := .mk "A" "alpine" ["make"] [.mk cycLeafB []]

def cycB : Task := .mk "B" "alpine" ["test"] [.mk cycInnerA []]

def cycA : Task := .mk "A" "alpine" ["make"] [.mk cycB []]

/-- The repeat-free chain A to B to C. -/
def chainC : Task := .mk "C" "alpine" [] []

def chainB : Task := .mk "B" "alpine" [] [.mk chainC []]

def chainA : Task := .mk "A" "alpine" [] [.mk chainB []]

/-- The diamond: A depends on B and C, both of which reference the same D. -/
def diamondD : Task := .mk "D" "alpine" [] []

def diamondB : Task := .mk "B" "alpine" [] [.mk diamondD [⟨"/d", "/d"⟩]]

def diamondC : Task := .mk "C" "alpine" [] [.mk diamondD [⟨"/d", "/d"⟩]]

def diamondA : Task := .mk "A" "alpine" [] [.mk diamondB [], .mk diamondC []]

set_option maxHeartbeats 4000000 in
set_option maxRecDepth 100000 in
/-- C1: the detector rejects a graph whose root fingerprint reappears on its
own ancestor path (the unrolled A to B to A cycle), accepts the repeat-free
chain A to B to C, and accepts the diamond A over B and C joining at a
shared D without mistaking the shared reference for a cycle. -/
theorem isCircularDependencyFree_examples :
    cycA.isCircularDependencyFree [] = false ∧
    chainA.isCircularDependencyFree [] = true ∧
    diamondA.isCircularDependencyFree [] = true :=
  ⟨by decide, by decide, by decide⟩

/-! ## Command-execution claims -/

/-- When every command of the list exits zero, executeCommands runs them all
in declared order and returns no error. -/
theorem executeCommands_ok (ora : DockerClient) (cid : String) (cmds : List String)
    (h : ∀ x ∈ cmds, ora.execExitCode cid x = 0) :
    executeCommands ora cid cmds = (cmds.map (Event.execCommand cid), none) := by
  induction cmds with
  | nil => rfl
  | cons x rest ih =>
    have hx : ora.execExitCode cid x = 0 := h x (by simp)
    simp [executeCommands, hx, ih (fun y hy => h y (by simp [hy]))]

/-- When the commands before c exit zero and c exits non-zero, exactly the
commands up to and including c run and the command-failure error carries the
text and exit code of c. -/
theorem executeCommands_fail (ora : DockerClient) (cid : String)
    (pre : List String) (c : String) (post : List String)
    (hpre : ∀ x ∈ pre, ora.execExitCode cid x = 0) (hc : ora.execExitCode cid c ≠ 0) :
    executeCommands ora cid (pre ++ c :: post) =
      ((pre ++ [c]).map (Event.execCommand cid),
        some (.errCommandFailed c (ora.execExitCode cid c))) := by
  induction pre with
  | nil => simp [executeCommands, hc]
  | cons x rest ih =>
    have hx : ora.execExitCode cid x = 0 := hpre x (by simp)
    simp [executeCommands, hx, ih (fun y hy => hpre y (by simp [hy]))]

/-- C3: executeCommands runs the Commands strictly in declared order; when
every command succeeds they all run in order, and when a command exits with
a non-zero code no later command of the task runs and the returned error
identifies the failing command text and its exit code. -/
theorem executeCommands_spec (ora : DockerClient) (cid : String) :
    (∀ cmds : List String, (∀ x ∈ cmds, ora.execExitCode cid x = 0) →
      executeCommands ora cid cmds = (cmds.map (Event.execCommand cid), none)) ∧
    (∀ (pre : List String) (c : String) (post : List String),
      (∀ x ∈ pre, ora.execExitCode cid x = 0) → ora.execExitCode cid c ≠ 0 →
      executeCommands ora cid (pre ++ c :: post) =
        ((pre ++ [c]).map (Event.execCommand cid),
          some (.errCommandFailed c (ora.execExitCode cid c)))) :=
  ⟨fun cmds h => executeCommands_ok ora cid cmds h,
    fun pre c post hpre hc => executeCommands_fail ora cid pre c post hpre hc⟩

/-- An oracle whose command named bad exits 2 and whose other channels succeed. -/
def egOracleCmds : DockerClient :=
  { containersByName := fun _ => [], stopError := fun _ => none, removeError := fun _ => none,
    imageExists := fun _ => true, pullError := fun _ => none, createError := fun _ _ => none,
    createId := fun nm _ => nm, startError := fun _ => none,
    execExitCode := fun _ cmd => if cmd = "bad" then 2 else 0,
    copyFromError := fun _ _ => none, mkdirError := fun _ _ => none,
    copyToError := fun _ _ => none }

theorem executeCommands_spec_witness :
    executeCommands egOracleCmds "cid" (["a"] ++ "bad" :: ["c"]) =
      ((["a"] ++ ["bad"]).map (Event.execCommand "cid"),
        some (.errCommandFailed "bad" (egOracleCmds.execExitCode "cid" "bad"))) ∧
    executeCommands egOracleCmds "cid" ["a", "b"] = (["a", "b"].map (Event.execCommand "cid"), none) :=
  ⟨(executeCommands_spec egOracleCmds "cid").2 ["a"] "bad" ["c"] (by decide) (by decide),
    (executeCommands_spec egOracleCmds "cid").1 ["a", "b"] (by decide)⟩

/-! ## Success-path lemmas for the executor -/

/-- An oracle on which every provider call the executor makes succeeds. -/
structure AllOk (ora : DockerClient) : Prop where
  containers : ∀ n, ora.containersByName n = []
  stop : ∀ id, ora.stopError id = none
  image : ∀ img, ora.imageExists img = true
  create : ∀ nm img, ora.createError nm img = none
  start : ∀ id, ora.startError id = none
  exec : ∀ id cmd, ora.execExitCode id cmd = 0
  copyFrom : ∀ id p, ora.copyFromError id p = none
  mkdir : ∀ id d, ora.mkdirError id d = none
  copyTo : ∀ id d, ora.copyToError id d = none

/-- The container id a successful Execute of a task records. -/
def execCid (ora : DockerClient) (t : Task) : String :=
  ora.createId t.generateContainerName t.baseImage

/-- When its three provider calls succeed, copyBetweenContainers creates the
target directory exactly when it differs from the dot and then performs the
copy. -/
theorem copyBetweenContainers_ok (ora : DockerClient) (srcId dstId f t : String)
    (hFrom : ∀ id p, ora.copyFromError id p = none)
    (hMkdir : ∀ id d, ora.mkdirError id d = none)
    (hTo : ∀ id d, ora.copyToError id d = none) :
    copyBetweenContainers ora srcId dstId f t =
      ((if filepathDir t ≠ "." then [Event.mkdirInContainer dstId (filepathDir t)] else []) ++
        [Event.copyArtifact srcId dstId f t], none) := by
  unfold copyBetweenContainers
  rw [hFrom]
  by_cases hdir : filepathDir t = "."
  · simp [hdir, hTo]
  · simp [hdir, hMkdir, hTo]

/-- The copy events one dependency contributes: for each declared artifact in
order, the optional directory creation followed by the copy from the
dependency's container into the current container. -/
def copyEventsFor (ora : DockerClient) (cid : String) (d : Dependency) : List Event :=
  d.artifacts.flatMap (fun a =>
    (if filepathDir a.toPath ≠ "." then [Event.mkdirInContainer cid (filepathDir a.toPath)]
      else []) ++
    [Event.copyArtifact (execCid ora d.task) cid a.fromPath a.toPath])

theorem copyArtifactsLoop_allOk (ora : DockerClient) (h : AllOk ora)
    (srcId dstId : String) (arts : List Artifact) :
    copyArtifactsLoop ora srcId dstId arts =
      (arts.flatMap (fun a =>
        (if filepathDir a.toPath ≠ "." then [Event.mkdirInContainer dstId (filepathDir a.toPath)]
          else []) ++
        [Event.copyArtifact srcId dstId a.fromPath a.toPath]), none) := by
  induction arts with
  | nil => rfl
  | cons a rest ih =>
    simp only [copyArtifactsLoop,
      copyBetweenContainers_ok ora srcId dstId a.fromPath a.toPath h.copyFrom h.mkdir h.copyTo,
      ih, List.flatMap_cons, List.append_assoc]

theorem copyPhase_allOk (ora : DockerClient) (h : AllOk ora) (cid : String)
    (ds : List Dependency) :
    copyPhase ora cid ds (ds.map (fun d => execCid ora d.task)) =
      (ds.flatMap (copyEventsFor ora cid), none) := by
  induction ds with
  | nil => rfl
  | cons d rest ih =>
    obtain ⟨dt, arts⟩ := d
    have hdt : (Dependency.mk dt arts).task = dt := rfl
    simp only [List.map_cons, hdt, copyPhase,
      copyArtifactsLoop_allOk ora h (execCid ora dt) cid arts, ih, List.flatMap_cons]
    simp [copyEventsFor, Dependency.task, Dependency.artifacts]

mutual
/-- On an all-success oracle, Execute returns the container id assigned by
the create call for the task's deterministic name. -/
theorem Execute_allOk (ora : DockerClient) (h : AllOk ora) :
    ∀ t : Task, (Task.Execute ora t).2 = Except.ok (execCid ora t)
  | .mk n b c [] => by
    have hcmds := executeCommands_ok ora
      (ora.createId (Task.generateContainerName (.mk n b c [])) b) c (fun x _ => h.exec _ x)
    simp only [Task.Execute, cleanUpRunningContainer, h.containers, cleanUpLoop, pullImage,
      h.image, if_true, h.create, h.start, hcmds, h.stop, execCid, Task.baseImage]
    simp [h.stop]
  | .mk n b c (d :: rest) => by
    have hcmds := executeCommands_ok ora
      (ora.createId (Task.generateContainerName (.mk n b c (d :: rest))) b) c
      (fun x _ => h.exec _ x)
    have hloop := execDepsLoop_allOk ora h (d :: rest)
    have hcopy := copyPhase_allOk ora h
      (ora.createId (Task.generateContainerName (.mk n b c (d :: rest))) b) (d :: rest)
    simp only [Task.Execute, cleanUpRunningContainer, h.containers, cleanUpLoop, pullImage,
      h.image, if_true, h.create, h.start, hloop, hcopy, hcmds, h.stop]
    simp [execCid, Task.baseImage]

/-- On an all-success oracle, the dependency-execution loop produces the
concatenation of the dependency Execute traces in declared order and
collects their container ids in declared order. -/
theorem execDepsLoop_allOk (ora : DockerClient) (h : AllOk ora) :
    ∀ ds : List Dependency,
      execDepsLoop ora ds =
        (ds.flatMap (fun d => (Task.Execute ora d.task).1),
          Except.ok (ds.map (fun d => execCid ora d.task)))
  | [] => rfl
  | .mk dt arts :: rest => by
    have h1 : Task.Execute ora dt =
        ((Task.Execute ora dt).1, Except.ok (execCid ora dt)) :=
      Prod.ext rfl (Execute_allOk ora h dt)
    have h2 := execDepsLoop_allOk ora h rest
    simp only [execDepsLoop]
    rw [h1, h2]
    simp [Dependency.task]
end

/-- Shared success-path description of executeDependenciesAndCopyArtifacts:
the cycle-check report, then every dependency execution in declared order,
then every artifact copy in declared order, with no error. -/
theorem executeDepsAndCopy_allOk (ora : DockerClient) (h : AllOk ora) (t : Task) (cid : String)
    (hne : t.dependencies ≠ []) :
    Task.executeDependenciesAndCopyArtifacts ora t cid =
      ((if t.isCircularDependencyFree [] then ([] : List Event)
        else [Event.circularDependencyFound]) ++
        (t.dependencies.flatMap (fun d => (Task.Execute ora d.task).1) ++
          t.dependencies.flatMap (copyEventsFor ora cid)), none) := by
  have he : t.dependencies.isEmpty = false := by
    cases hd : t.dependencies with
    | nil => exact absurd hd hne
    | cons a l => rfl
  unfold Task.executeDependenciesAndCopyArtifacts
  rw [he]
  simp only [Bool.false_eq_true, if_false, execDepsLoop_allOk ora h t.dependencies,
    copyPhase_allOk ora h cid t.dependencies]
  simp [List.append_assoc]

/-- C4: dependency resolution is two-phase: with a non-empty dependency list,
every dependency task is recursively Executed first, in declared order, and
only after all of them have completed are artifacts copied, iterating the
dependencies and each dependency's Artifacts in declared order; no artifact
copy into the current task precedes the last dependency execution. -/
theorem executeDependencies_twoPhase (ora : DockerClient) (t : Task) (cid : String)
    (h : AllOk ora) (hne : t.dependencies ≠ []) :
    Task.executeDependenciesAndCopyArtifacts ora t cid =
      ((if t.isCircularDependencyFree [] then ([] : List Event)
        else [Event.circularDependencyFound]) ++
        (t.dependencies.flatMap (fun d => (Task.Execute ora d.task).1) ++
          t.dependencies.flatMap (copyEventsFor ora cid)), none) :=
  executeDepsAndCopy_allOk ora h t cid hne

/-- The oracle on which every provider call succeeds and a created container
gets its requested name as its id. -/
def happyOracle : DockerClient :=
  { containersByName := fun _ => [], stopError := fun _ => none, removeError := fun _ => none,
    imageExists := fun _ => true, pullError := fun _ => none, createError := fun _ _ => none,
    createId := fun nm _ => nm, startError := fun _ => none, execExitCode := fun _ _ => 0,
    copyFromError := fun _ _ => none, mkdirError := fun _ _ => none,
    copyToError := fun _ _ => none }

theorem happyOracle_allOk : AllOk happyOracle :=
  ⟨fun _ => rfl, fun _ => rfl, fun _ => rfl, fun _ _ => rfl, fun _ => rfl, fun _ _ => rfl,
    fun _ _ => rfl, fun _ _ => rfl, fun _ _ => rfl⟩

theorem executeDependencies_twoPhase_witness :
    Task.executeDependenciesAndCopyArtifacts happyOracle diamondA "cid" =
      ((if diamondA.isCircularDependencyFree [] then ([] : List Event)
        else [Event.circularDependencyFound]) ++
        (diamondA.dependencies.flatMap (fun d => (Task.Execute happyOracle d.task).1) ++
          diamondA.dependencies.flatMap (copyEventsFor happyOracle "cid")), none) :=
  executeDependencies_twoPhase happyOracle diamondA "cid" happyOracle_allOk
    (by simp [diamondA, Task.dependencies])

/-- C2: when the cycle check at the start of dependency resolution finds a
cycle, executeDependenciesAndCopyArtifacts reports it but does not abort: no
error is returned on the finding alone and the dependencies are still
executed (and their artifacts copied) exactly as in the acyclic case. -/
theorem cycleFinding_reported_not_fatal (ora : DockerClient) (t : Task) (cid : String)
    (h : AllOk ora) (hne : t.dependencies ≠ [])
    (hcyc : t.isCircularDependencyFree [] = false) :
    Task.executeDependenciesAndCopyArtifacts ora t cid =
      (Event.circularDependencyFound ::
        (t.dependencies.flatMap (fun d => (Task.Execute ora d.task).1) ++
          t.dependencies.flatMap (copyEventsFor ora cid)), none) := by
  have hmain := executeDepsAndCopy_allOk ora h t cid hne
  rw [hcyc] at hmain
  simpa using hmain

set_option maxHeartbeats 2000000 in
set_option maxRecDepth 100000 in
theorem cycleFinding_witness :
    Task.executeDependenciesAndCopyArtifacts happyOracle cycA "cid" =
      (Event.circularDependencyFound ::
        (cycA.dependencies.flatMap (fun d => (Task.Execute happyOracle d.task).1) ++
          cycA.dependencies.flatMap (copyEventsFor happyOracle "cid")), none) :=
  cycleFinding_reported_not_fatal happyOracle cycA "cid" happyOracle_allOk
    (by simp [cycA, Task.dependencies]) (by decide)

/-! ## Reclaim claims -/

/-- An oracle holding one pre-existing running container whose stop fails. -/
def stopFailOracle : DockerClient :=
  { happyOracle with
    containersByName := fun _ => [⟨"c1", "running"⟩],
    stopError := fun _ => some "stop failed" }

/-- C9 counterexample: a failed stop during reclaim is returned as an error,
so cleanUpRunningContainer does not swallow every cleanup failure, and
Execute aborts on it instead of provisioning a fresh environment. -/
theorem cleanUp_stopFailure_aborts :
    cleanUpRunningContainer stopFailOracle "anyname" =
      ([.foundExisting "c1", .stopContainer "c1"], some (.errStopExisting "stop failed")) ∧
    (Task.Execute stopFailOracle chainC).2 = Except.error (.errStopExisting "stop failed") := by
  constructor
  · rfl
  · rfl

/-- C9 amended: only the remove step of reclaim is best-effort: with a
pre-existing running container whose stop succeeds but whose remove fails,
cleanUpRunningContainer returns no error (the remove error is built and
discarded, not even logged) and Execute proceeds to provision a fresh
environment and completes. -/
theorem cleanUp_removeFailure_not_fatal (ora : DockerClient) (cid0 : String) (t : Task)
    (hc : ora.containersByName t.generateContainerName = [⟨cid0, "running"⟩])
    (hstop : ∀ id, ora.stopError id = none)
    (hremove : ∃ msg, ora.removeError cid0 = some msg)
    (himg : ∀ i, ora.imageExists i = true)
    (hcreate : ∀ nm i, ora.createError nm i = none)
    (hstart : ∀ id, ora.startError id = none)
    (hexec : ∀ id cmd, ora.execExitCode id cmd = 0)
    (hdeps : t.dependencies = []) :
    cleanUpRunningContainer ora t.generateContainerName =
      ([.foundExisting cid0, .stopContainer cid0, .removeContainer cid0], none) ∧
    (Task.Execute ora t).2 = Except.ok (execCid ora t) := by
  constructor
  · rw [cleanUpRunningContainer, hc]
    simp [cleanUpLoop, hstop]
  · obtain ⟨n, b, c, deps⟩ := t
    have hd : deps = [] := by simpa [Task.dependencies] using hdeps
    subst hd
    have hcu : cleanUpRunningContainer ora
        (Task.generateContainerName (.mk n b c [])) =
        ([.foundExisting cid0, .stopContainer cid0, .removeContainer cid0], none) := by
      rw [cleanUpRunningContainer, hc]
      simp [cleanUpLoop, hstop]
    have hcmds := executeCommands_ok ora
      (ora.createId (Task.generateContainerName (.mk n b c [])) b) c (fun x _ => hexec _ x)
    simp only [Task.Execute, hcu, pullImage, himg, if_true, hcreate, hstart, hcmds, hstop]
    simp [execCid, Task.baseImage]

/-- An oracle holding one pre-existing running container whose remove fails
while everything else succeeds. -/
def removeFailOracle : DockerClient :=
  { happyOracle with
    containersByName := fun _ => [⟨"c1", "running"⟩],
    removeError := fun _ => some "remove failed" }

theorem cleanUp_removeFailure_witness :
    cleanUpRunningContainer removeFailOracle chainC.generateContainerName =
      ([.foundExisting "c1", .stopContainer "c1", .removeContainer "c1"], none) ∧
    (Task.Execute removeFailOracle chainC).2 = Except.ok (execCid removeFailOracle chainC) :=
  cleanUp_removeFailure_not_fatal removeFailOracle "c1" chainC rfl (fun _ => rfl)
    ⟨"remove failed", rfl⟩ (fun _ => rfl) (fun _ _ => rfl) (fun _ => rfl) (fun _ _ => rfl) rfl

/-! ## Artifact-placement claims -/

theorem lookupFile_setFile_self (p : String) (c : List Nat) :
    ∀ l, lookupFile p (setFile p c l) = some c
  | [] => by simp [setFile, lookupFile]
  | (q, c0) :: rest => by
    by_cases hq : q = p
    · simp [setFile, lookupFile, hq]
    · simp [setFile, lookupFile, hq, lookupFile_setFile_self p c rest]

theorem extractToContainer_dirs (d : String) :
    ∀ (es : List TarEntry) (fs : FileSystem), (extractToContainer d fs es).dirs = fs.dirs
  | [], _ => rfl
  | e :: rest, fs => by
    by_cases ht : e.typeflag = tarTypeReg
    · simp [extractToContainer, ht, extractToContainer_dirs d rest]
    · simp [extractToContainer, ht, extractToContainer_dirs d rest]

/-- Source and destination container filesystems exhibiting the artifact
renaming: the base names of the From and To paths differ. -/
def egSrcFS : FileSystem := ⟨[], [("/output/a.txt", [1, 2, 3])]⟩

def egDstFS : FileSystem := ⟨[], []⟩

/-- C7 counterexample: copying /output/a.txt to the declared To path
/dest/b.txt does not place the file at /dest/b.txt; it lands at /dest/a.txt,
the directory of the To path joined with the base name of the From path,
because the code hands the provider only the directory of the To path. -/
theorem copyBetweenContainers_misplaces_file :
    lookupFile "/dest/b.txt"
        (copyBetweenContainersFS egSrcFS egDstFS "/output/a.txt" "/dest/b.txt").files = none ∧
    lookupFile "/dest/a.txt"
        (copyBetweenContainersFS egSrcFS egDstFS "/output/a.txt" "/dest/b.txt").files =
      some [1, 2, 3] :=
  ⟨rfl, rfl⟩

/-- C7 amended: copyBetweenContainers first issues a directory-creation
command for the directory of toPath in the destination container whenever
that directory differs from the dot, and the copied file then exists at the
directory of toPath joined with the base name of fromPath — which is exactly
toPath only when the two base names agree (as in all of the repository's
declared artifacts). -/
theorem copyBetweenContainers_placement (ora : DockerClient)
    (srcId dstId fromPath toPath : String) (src dst : FileSystem) (content : List Nat)
    (hsrc : lookupFile fromPath src.files = some content)
    (hFrom : ∀ id p, ora.copyFromError id p = none)
    (hMkdir : ∀ id d, ora.mkdirError id d = none)
    (hTo : ∀ id d, ora.copyToError id d = none) :
    copyBetweenContainers ora srcId dstId fromPath toPath =
      ((if filepathDir toPath ≠ "." then [Event.mkdirInContainer dstId (filepathDir toPath)]
        else []) ++ [Event.copyArtifact srcId dstId fromPath toPath], none) ∧
    lookupFile (joinPath (filepathDir toPath) (filepathBase fromPath))
        (copyBetweenContainersFS src dst fromPath toPath).files = some content ∧
    (copyBetweenContainersFS src dst fromPath toPath).dirs =
      (if filepathDir toPath ≠ "." then dst.dirs ++ mkdirAllDirs (filepathDir toPath)
        else dst.dirs) := by
  refine ⟨copyBetweenContainers_ok ora srcId dstId fromPath toPath hFrom hMkdir hTo, ?_, ?_⟩
  · unfold copyBetweenContainersFS tarFromContainer
    rw [hsrc]
    by_cases hdir : filepathDir toPath = "."
    · simp [hdir, extractToContainer, tarTypeReg, lookupFile_setFile_self]
    · simp [hdir, extractToContainer, tarTypeReg, lookupFile_setFile_self]
  · unfold copyBetweenContainersFS tarFromContainer
    rw [hsrc]
    by_cases hdir : filepathDir toPath = "."
    · simp [hdir, extractToContainer_dirs]
    · simp [hdir, extractToContainer_dirs]

theorem copyBetweenContainers_placement_witness :
    copyBetweenContainers happyOracle "src" "dst" "/output/a.txt" "/dest/b.txt" =
      ((if filepathDir "/dest/b.txt" ≠ "."
        then [Event.mkdirInContainer "dst" (filepathDir "/dest/b.txt")] else []) ++
        [Event.copyArtifact "src" "dst" "/output/a.txt" "/dest/b.txt"], none) ∧
    lookupFile (joinPath (filepathDir "/dest/b.txt") (filepathBase "/output/a.txt"))
        (copyBetweenContainersFS egSrcFS egDstFS "/output/a.txt" "/dest/b.txt").files =
      some [1, 2, 3] :=
  ⟨(copyBetweenContainers_placement happyOracle "src" "dst" "/output/a.txt" "/dest/b.txt"
      egSrcFS egDstFS [1, 2, 3] rfl (fun _ _ => rfl) (fun _ _ => rfl) (fun _ _ => rfl)).1,
    (copyBetweenContainers_placement happyOracle "src" "dst" "/output/a.txt" "/dest/b.txt"
      egSrcFS egDstFS [1, 2, 3] rfl (fun _ _ => rfl) (fun _ _ => rfl) (fun _ _ => rfl)).2.1⟩

/-! ## Host-side tar extraction claims -/

theorem extractLoop_skip (dest : String) (fs : FileSystem) :
    ∀ (pre rest : List TarEntry), (∀ x ∈ pre, x.typeflag ≠ tarTypeReg) →
      extractLoop dest fs (pre ++ rest) = extractLoop dest fs rest
  | [], _, _ => rfl
  | e :: pre, rest, h => by
    have he : e.typeflag ≠ tarTypeReg := h e (by simp)
    simp only [List.cons_append, extractLoop, if_pos he]
    exact extractLoop_skip dest fs pre rest (fun x hx => h x (by simp [hx]))

/-- C8: ExtractFileFromTar creates the destination's parent directory
recursively, skips every archive entry that is not a regular file, writes
exactly the first regular-file entry to the destination path — the result
does not depend on any later entry — and overwrites an existing destination
file. -/
theorem ExtractFileFromTar_spec (pre : List TarEntry) (e : TarEntry) (post : List TarEntry)
    (destPath : String) (fs : FileSystem)
    (hpre : ∀ x ∈ pre, x.typeflag ≠ tarTypeReg) (he : e.typeflag = tarTypeReg) :
    ExtractFileFromTar (pre ++ e :: post) destPath fs =
      { dirs := fs.dirs ++ mkdirAllDirs (filepathDir destPath),
        files := setFile destPath e.content fs.files } ∧
    lookupFile destPath (ExtractFileFromTar (pre ++ e :: post) destPath fs).files =
      some e.content := by
  have h1 : ExtractFileFromTar (pre ++ e :: post) destPath fs =
      { dirs := fs.dirs ++ mkdirAllDirs (filepathDir destPath),
        files := setFile destPath e.content fs.files } := by
    unfold ExtractFileFromTar
    rw [extractLoop_skip destPath _ pre (e :: post) hpre]
    simp [extractLoop, he]
  refine ⟨h1, ?_⟩
  rw [h1]
  exact lookupFile_setFile_self destPath e.content fs.files

/-- A host filesystem that already holds an older file at the destination. -/
def egHostFS : FileSystem := ⟨[], [("art/f.txt", [1])]⟩

theorem ExtractFileFromTar_spec_witness :
    ExtractFileFromTar ([⟨53, "d", []⟩] ++ TarEntry.mk 48 "f.txt" [7, 8] :: [⟨48, "g.txt", [9]⟩])
        "art/f.txt" egHostFS =
      { dirs := egHostFS.dirs ++ mkdirAllDirs (filepathDir "art/f.txt"),
        files := setFile "art/f.txt" (TarEntry.mk 48 "f.txt" [7, 8]).content egHostFS.files } ∧
    lookupFile "art/f.txt"
        (ExtractFileFromTar
          ([⟨53, "d", []⟩] ++ TarEntry.mk 48 "f.txt" [7, 8] :: [⟨48, "g.txt", [9]⟩])
          "art/f.txt" egHostFS).files =
      some (TarEntry.mk 48 "f.txt" [7, 8]).content :=
  ExtractFileFromTar_spec [⟨53, "d", []⟩] (TarEntry.mk 48 "f.txt" [7, 8]) [⟨48, "g.txt", [9]⟩]
    "art/f.txt" egHostFS (by decide) rfl

end BuildVault
